import Mathlib

/-!
Shallow embedding of the AMQP session layer of
`sdk/servicebus/azure-servicebus/azure/servicebus/_pyamqp/aio/_session_async.py`.

The `Session` class is embedded as a record; each handler method
(`_outgoing_transfer`, `_incoming_transfer`, `_incoming_flow`,
`_incoming_attach`, `end`) becomes an explicit state-passing function that
returns the updated session together with the frames handed to
`Connection._process_outgoing_frame` and, where the Python code can raise,
the uncaught exception.  Machine integers are Python ints (unbounded), so
window arithmetic is over `Int` and sizes/handles over `Nat`.

Collaborators that live outside the session module (the `constants` enums,
the `error` module, `Link` objects, the frame encoder) are modelled from the
specification where noted; their internals do not decide any of the
properties below, which are all about the session's own control flow.
-/

namespace PyAmqp

/-- Modelled from the spec: the session states of `constants.SessionState`
(the constants module is not part of the analysed sources); the session code
uses the values purely symbolically. -/
inductive SessionState where
  | UNMAPPED
  | BEGIN_SENT
  | BEGIN_RCVD
  | MAPPED
  | END_SENT
  | END_RCVD
  | DISCARDING
deriving DecidableEq, Repr

/-- Modelled from the spec: delivery outcomes of `constants.SessionTransferState`. -/
inductive SessionTransferState where
  | PENDING
  | OKAY
  | BUSY
  | ERROR
deriving DecidableEq, Repr

/-- Modelled from the spec: `constants.Role` (Sender/Receiver) used in the
attach handshake. -/
inductive Role where
  | Sender
  | Receiver
deriving DecidableEq, Repr

/-- Modelled from the spec: the two AMQP error conditions the session raises
(`error.ErrorCondition`, not part of the analysed sources). -/
inductive ErrorCondition where
  | SessionUnattachedHandle
  | LinkDetachForced
deriving DecidableEq, Repr

/-- Modelled from the spec: `error.AMQPError` carries a condition plus a
human-readable description. -/
structure AMQPError where
  condition : ErrorCondition
  description : String
deriving DecidableEq, Repr

/-- Python exceptions that can escape the modelled session methods. -/
inductive PyErr where
  | keyError
  | valueError
  | stopIteration
deriving DecidableEq, Repr

/-- Keys of the `self.links` dict.  `_incoming_attach` looks links up under
the decoded string `frame[0].decode("utf-8")` (line 177/187) but registers a
peer-initiated link under the raw bytes `frame[0]` (line 200); the model
keeps the two key spaces apart. -/
inductive LinkKey where
  | str (s : String)
  | bytes (s : String)
deriving DecidableEq, Repr

/-- Modelled from the spec: the part of a `Link` object the session code
reads.  Link-internal behaviour (its own `_incoming_attach`/`_incoming_flow`
/`_incoming_transfer`/`detach` methods) lives outside the analysed sources
and is treated as opaque and non-raising. -/
structure Link where
  name : LinkKey
  role : Role
  is_closed : Bool
deriving DecidableEq, Repr

/-- Python dict lookup `d[k]` as an association-list lookup. -/
def dlookup {α β : Type} [DecidableEq α] (k : α) : List (α × β) → Option β
  | [] => none
  | (k', v) :: rest => if k = k' then some v else dlookup k rest

/-- Python dict assignment `d[k] = v`: replace in place, else append
(preserving the insertion-order iteration Python dicts guarantee). -/
def dinsert {α β : Type} [DecidableEq α] (k : α) (v : β) : List (α × β) → List (α × β)
  | [] => [(k, v)]
  | (k', v') :: rest => if k = k' then (k, v) :: rest else (k', v') :: dinsert k v rest

/-- The Transfer performative fields that `_outgoing_transfer` copies
verbatim from `delivery.frame` into every fragment (lines 263-273 and
293-303).  Their values never influence the session's control flow. -/
structure TransferMeta where
  handle : Nat
  delivery_tag : List Nat
  message_format : Nat
  settled : Bool
  rcv_settle_mode : Option Nat
  txstate : Option Nat
  resume : Bool
  aborted : Bool
  batchable : Bool
deriving DecidableEq, Repr

/-- Frames the session hands to `Connection._process_outgoing_frame`
(the channel argument, identical on every call, is omitted). -/
inductive OutFrame where
  | transfer (delivery_id : Int) (more : Bool) (meta : TransferMeta) (payload : List Nat)
  | flow (next_incoming_id : Int) (incoming_window : Int)
         (next_outgoing_id : Int) (outgoing_window : Int)
  | endf (error : Option AMQPError)
  | detach (link : LinkKey) (error : Option AMQPError)
deriving DecidableEq, Repr

def frDeliveryId : OutFrame → Int
  | OutFrame.transfer did _ _ _ => did
  | _ => 0

def frMore : OutFrame → Bool
  | OutFrame.transfer _ m _ _ => m
  | _ => false

def frPayload : OutFrame → List Nat
  | OutFrame.transfer _ _ _ p => p
  | _ => []

/-- The mutable state of `Session.__init__` that the modelled handlers read
or write.  `name`, `channel`, capabilities, properties and the network-trace
fields only feed logging or the Begin handshake and are omitted.
`next_incoming_id` is `None` until the peer's Begin arrives; the handlers
modelled here are only exercised on mapped sessions, where it is an int. -/
structure Session where
  state : SessionState
  handle_max : Nat
  next_outgoing_id : Int
  next_incoming_id : Int
  incoming_window : Int
  outgoing_window : Int
  target_incoming_window : Int
  remote_incoming_window : Int
  remote_outgoing_window : Int
  links : List (LinkKey × Link)
  output_handles : List (Nat × Link)
  input_handles : List (Nat × Link)
deriving DecidableEq, Repr

/-- One application delivery as consumed by `_outgoing_transfer`:
`delivery.frame` split into the copied performative fields, the payload
bytes, and the mutable `transfer_state` outcome slot. -/
structure Delivery where
  meta : TransferMeta
  payload : List Nat
  transfer_state : SessionTransferState
deriving DecidableEq, Repr

/-- The fragment loop of `_outgoing_transfer` (lines 259-315): while the
remaining payload exceeds `available_frame_size` emit a fragment of exactly
that many bytes with `more = true`, then emit the remainder with
`more = false`; every fragment repeats `delivery_id` and the copied fields.
For `A = 0` the Python loop would not terminate; the model returns the
single-frame result there and every theorem below assumes `0 < A`. -/
def transferFrames (did : Int) (m : TransferMeta) (A : Nat) (payload : List Nat) :
    List OutFrame :=
  if payload.length ≤ A ∨ A = 0 then
    [OutFrame.transfer did false m payload]
  else
    OutFrame.transfer did true m (payload.take A) ::
      transferFrames did m A (payload.drop A)
termination_by payload.length
decreasing_by
  rw [List.length_drop]
  rw [not_or] at *
  omega

/-- `Session._outgoing_transfer` (lines 237-320).  `A` is the computed
`available_frame_size = remote_max_frame_size - transfer_overhead_size - 8`;
the overhead measurement encodes a Transfer performative (`encode_frame`,
outside the analysed sources), so the model takes the resulting size as a
parameter.  Returns the updated session, the delivery's final
`transfer_state`, and the emitted frames.  Mirroring the source, the ERROR
assignment at line 239 has no early return: it is overwritten by BUSY or
OKAY before the method finishes. -/
def outgoingTransfer (s : Session) (A : Nat) (d : Delivery) :
    Session × SessionTransferState × List OutFrame :=
  let ts := if s.state ≠ SessionState.MAPPED then SessionTransferState.ERROR
            else d.transfer_state
  if s.remote_incoming_window ≤ 0 then
    (s, SessionTransferState.BUSY, [])
  else
    ({ s with
        next_outgoing_id := s.next_outgoing_id + 1,
        remote_incoming_window := s.remote_incoming_window - 1,
        outgoing_window := s.outgoing_window - 1 },
     SessionTransferState.OKAY,
     transferFrames s.next_outgoing_id d.meta A d.payload)

/-- A sequence of sends on one session: each element carries the
`available_frame_size` computed for that delivery together with the
delivery itself.  Returns the final session and the outcome of each send. -/
def outgoingTransfers (s : Session) : List (Nat × Delivery) → Session × List SessionTransferState
  | [] => (s, [])
  | (A, d) :: rest =>
    let r := outgoingTransfer s A d
    let rs := outgoingTransfers r.1 rest
    (rs.1, r.2.1 :: rs.2)

/-- Number of OKAY outcomes in a list of transfer results. -/
def okayCount : List SessionTransferState → Nat
  | [] => 0
  | t :: rest => (if t = SessionTransferState.OKAY then 1 else 0) + okayCount rest

/-- The error object built at lines 335-339 and 368-372. -/
def unattachedHandleError : AMQPError :=
  { condition := ErrorCondition.SessionUnattachedHandle,
    description := "Invalid handle reference in received frame: Handle is not currently associated with an attached link" }

/-- `Session._outgoing_flow()` with no link-scoped fields (lines 208-221):
a Flow frame carrying the session's current counters and windows. -/
def outgoingFlowFrame (s : Session) : OutFrame :=
  OutFrame.flow s.next_incoming_id s.incoming_window s.next_outgoing_id s.outgoing_window

/-- `Session.end(error, wait)` (lines 399-411) with the default
`wait = False`, for which `_wait_for_response` is a no-op.  If the state is
not already UNMAPPED/DISCARDING an End frame (optionally carrying the error)
is sent; every link's `detach()` is then invoked (link teardown lives
outside the analysed sources and is recorded as one detach action per link;
it does not touch the session's own fields); finally the state becomes
DISCARDING when an error was given, END_SENT otherwise.  The broad
`except` around the body only forces UNMAPPED if teardown raises; nothing
in the modelled body raises. -/
def endSession (s : Session) (error : Option AMQPError) : Session × List OutFrame :=
  let endFrames :=
    if s.state ≠ SessionState.UNMAPPED ∧ s.state ≠ SessionState.DISCARDING then
      [OutFrame.endf error]
    else []
  let detachFrames := s.links.map (fun kv => OutFrame.detach kv.1 none)
  let newState :=
    if error.isSome then SessionState.DISCARDING else SessionState.END_SENT
  ({ s with state := newState }, endFrames ++ detachFrames)

/-- Result of `Session._incoming_transfer`: the updated session, the frames
sent while handling it, and — instrumentation for the error path — the error
`self.end(error=...)` was invoked with, when it was. -/
structure TransferIngress where
  session : Session
  frames : List OutFrame
  endedWith : Option AMQPError
deriving DecidableEq, Repr

/-- `Session._incoming_transfer(frame)` (lines 322-343).  Only `frame[0]`
(the handle) steers the session-level control flow; the rest of the frame is
forwarded to the link (outside the analysed sources).  The three counters
are updated unconditionally, then the frame is routed by handle; an unknown
handle sets DISCARDING and calls `self.end` with a SessionUnattachedHandle
error.  Either way, if `incoming_window` has hit 0 it is replenished to
`target_incoming_window` and a Flow frame is sent. -/
def incomingTransfer (s : Session) (handle : Nat) : TransferIngress :=
  let s1 := { s with
      next_incoming_id := s.next_incoming_id + 1,
      remote_outgoing_window := s.remote_outgoing_window - 1,
      incoming_window := s.incoming_window - 1 }
  let routed : Session × List OutFrame × Option AMQPError :=
    match dlookup handle s1.input_handles with
    | some _ => (s1, [], none)
    | none =>
      let sD := { s1 with state := SessionState.DISCARDING }
      let ended := endSession sD (some unattachedHandleError)
      (ended.1, ended.2, some unattachedHandleError)
  let s2 := routed.1
  if s2.incoming_window = 0 then
    let s3 := { s2 with incoming_window := s2.target_incoming_window }
    { session := s3, frames := routed.2.1 ++ [outgoingFlowFrame s3],
      endedWith := routed.2.2 }
  else
    { session := s2, frames := routed.2.1, endedWith := routed.2.2 }

/-- The fields of an incoming Flow performative read by `_incoming_flow`:
`frame[0] = next_incoming_id` (optional), `frame[1] = incoming_window`,
`frame[2] = next_outgoing_id`, `frame[3] = outgoing_window`,
`frame[4] = handle` (optional). -/
structure FlowIn where
  next_incoming_id : Option Int
  incoming_window : Int
  next_outgoing_id : Int
  outgoing_window : Int
  handle : Option Nat
deriving DecidableEq, Repr

/-- Python's `x or y` on an optional int: `None` and `0` are both falsy, so
the default is taken for a missing field and for the value `0` alike. -/
def pyOr (v : Option Int) (dflt : Int) : Int :=
  match v with
  | none => dflt
  | some x => if x = 0 then dflt else x

/-- `Session._incoming_flow(frame)` (lines 223-235).  Returns the updated
session, the handles of the links whose `_incoming_flow` was invoked (link
internals live outside the analysed sources and leave the session's fields
alone), and the uncaught exception, if any: the line-231 lookup of an
unknown handle raises `KeyError`.  The broadcast loop re-reads
`self.remote_incoming_window` on every iteration; since the modelled links
do not mutate the session the per-iteration test is a constant. -/
def incomingFlow (s : Session) (f : FlowIn) : Session × List Nat × Option PyErr :=
  let s1 := { s with next_incoming_id := f.next_outgoing_id }
  let remote_incoming_id := pyOr f.next_incoming_id s1.next_outgoing_id
  let s2 := { s1 with
      remote_incoming_window := remote_incoming_id + f.incoming_window - s1.next_outgoing_id,
      remote_outgoing_window := f.outgoing_window }
  match f.handle with
  | some h =>
    match dlookup h s2.input_handles with
    | some _ => (s2, [h], none)
    | none => (s2, [], some PyErr.keyError)
  | none =>
    (s2,
     (s2.output_handles.filter
        (fun hl => decide (0 < s2.remote_incoming_window) && !hl.2.is_closed)).map
       (fun hl => hl.1),
     none)

/-- The window recomputation exactly as the claim words it: the peer's
`next_incoming_id` whenever the field is present, this side's
`next_outgoing_id` only when it is absent. -/
def claimRemoteIncomingWindow (s : Session) (f : FlowIn) : Int :=
  (match f.next_incoming_id with
   | none => s.next_outgoing_id
   | some v => v) + f.incoming_window - s.next_outgoing_id

/-- The fields of an incoming Attach performative read by
`_incoming_attach`: `frame[0]` the link name (bytes on the wire), `frame[1]`
the remote handle, `frame[2]` the role. -/
structure AttachIn where
  name : String
  handle : Nat
  role : Role
deriving DecidableEq, Repr

/-- `Session._get_next_output_handle` (lines 108-118): `ValueError` once
`len(self._output_handles) >= self.handle_max`, otherwise the first integer
in `range(1, handle_max)` not already assigned (`next` on an exhausted
generator raises `StopIteration`). -/
def getNextOutputHandle (s : Session) : Except PyErr Nat :=
  if s.handle_max ≤ s.output_handles.length then
    Except.error PyErr.valueError
  else
    match (List.range' 1 (s.handle_max - 1)).find?
        (fun i => (dlookup i s.output_handles).isNone) with
    | some i => Except.ok i
    | none => Except.error PyErr.stopIteration

/-- `Session._incoming_attach(frame)` (lines 175-206).  Returns the updated
session, the emitted frames, and the uncaught exception, if any.  When the
name is known (locally initiated link) the remote handle is recorded and the
frame forwarded to the link (outside the analysed sources, assumed to
succeed).  When it is unknown, the line-177 `KeyError` routes to the
handler: on handle exhaustion the code attempts
`self.links[frame[0].decode("utf-8")].detach(...)` — but that key was never
inserted (that is why the handler ran), so the lookup itself raises
`KeyError` and the Detach carrying the LinkDetachForced error is never
built or sent; otherwise a new link is created and registered, under the
bytes key `frame[0]` in `self.links` (line 200). -/
def incomingAttach (s : Session) (f : AttachIn) : Session × List OutFrame × Option PyErr :=
  match dlookup (LinkKey.str f.name) s.links with
  | some link =>
    ({ s with input_handles := dinsert f.handle link s.input_handles }, [], none)
  | none =>
    match getNextOutputHandle s with
    | Except.error _ => (s, [], some PyErr.keyError)
    | Except.ok h =>
      let newLink : Link :=
        { name := LinkKey.bytes f.name,
          role := if f.role = Role.Sender then Role.Receiver else Role.Sender,
          is_closed := false }
      ({ s with
          links := dinsert (LinkKey.bytes f.name) newLink s.links,
          output_handles := dinsert h newLink s.output_handles,
          input_handles := dinsert f.handle newLink s.input_handles },
       [], none)

/-! ### Concrete sessions, links and deliveries used by witnesses and
counterexamples -/

def metaEx : TransferMeta :=
  { handle := 1, delivery_tag := [0], message_format := 0, settled := false,
    rcv_settle_mode := none, txstate := none, resume := false,
    aborted := false, batchable := false }

def linkEx : Link :=
  { name := LinkKey.str "L1", role := Role.Sender, is_closed := false }

def baseSession : Session :=
  { state := SessionState.MAPPED, handle_max := 10,
    next_outgoing_id := 0, next_incoming_id := 0,
    incoming_window := 1, outgoing_window := 1,
    target_incoming_window := 1,
    remote_incoming_window := 1, remote_outgoing_window := 0,
    links := [], output_handles := [], input_handles := [] }

def deliveryEmpty : Delivery :=
  { meta := metaEx, payload := [], transfer_state := SessionTransferState.PENDING }

def deliveryEx : Delivery :=
  { meta := metaEx, payload := [10, 11, 12, 13, 14],
    transfer_state := SessionTransferState.PENDING }

def sessionNotMapped : Session := { baseSession with state := SessionState.BEGIN_SENT }

def sessionBusy : Session := { baseSession with remote_incoming_window := 0 }

/-! ### Helper lemmas about the fragment loop -/

theorem tf_ne_nil (did : Int) (m : TransferMeta) (A : Nat) (p : List Nat) :
    transferFrames did m A p ≠ [] := by
  rw [transferFrames]; split <;> simp

theorem tf_length (did : Int) (m : TransferMeta) (A : Nat) (hA : 0 < A) (p : List Nat) :
    (transferFrames did m A p).length = (p.length - 1) / A + 1 := by
  induction p using transferFrames.induct did m A with
  | case1 p h =>
    rw [transferFrames, if_pos h]
    have hlt : p.length - 1 < A := by omega
    simp [Nat.div_eq_of_lt hlt]
  | case2 p h ih =>
    rw [transferFrames, if_neg h]
    push_neg at h
    simp only [List.length_cons, ih, List.length_drop]
    have heq : p.length - 1 = (p.length - A - 1) + A := by omega
    rw [heq, Nat.add_div_right _ hA]

theorem tf_more (did : Int) (m : TransferMeta) (A : Nat) (p : List Nat) :
    (transferFrames did m A p).map frMore
      = List.replicate ((transferFrames did m A p).length - 1) true ++ [false] := by
  induction p using transferFrames.induct did m A with
  | case1 p h => rw [transferFrames, if_pos h]; simp [frMore]
  | case2 p h ih =>
    rw [transferFrames, if_neg h]
    simp only [List.map_cons, List.length_cons]
    rw [ih]
    have hne := tf_ne_nil did m A (p.drop A)
    have hlen : 1 ≤ (transferFrames did m A (p.drop A)).length :=
      List.length_pos.mpr hne
    obtain ⟨k, hk⟩ : ∃ k, (transferFrames did m A (p.drop A)).length = k + 1 :=
      ⟨(transferFrames did m A (p.drop A)).length - 1, by omega⟩
    rw [hk]
    simp [frMore, List.replicate_succ]

theorem tf_delivery_id (did : Int) (m : TransferMeta) (A : Nat) (p : List Nat) :
    ∀ fr ∈ transferFrames did m A p, frDeliveryId fr = did := by
  induction p using transferFrames.induct did m A with
  | case1 p h =>
    rw [transferFrames, if_pos h]
    intro fr hfr
    simp only [List.mem_singleton] at hfr
    subst hfr; rfl
  | case2 p h ih =>
    rw [transferFrames, if_neg h]
    intro fr hfr
    rcases List.mem_cons.mp hfr with h1 | h2
    · subst h1; rfl
    · exact ih fr h2

theorem tf_flatten (did : Int) (m : TransferMeta) (A : Nat) (p : List Nat) :
    ((transferFrames did m A p).map frPayload).flatten = p := by
  induction p using transferFrames.induct did m A with
  | case1 p h => rw [transferFrames, if_pos h]; simp [frPayload]
  | case2 p h ih =>
    rw [transferFrames, if_neg h]
    simp only [List.map_cons, List.flatten_cons]
    rw [ih]
    simp [frPayload, List.take_append_drop]

/-! ### Claim theorems -/

/-- Claim C1: over any sequence of sends, each delivery whose outcome is
OKAY decrements `remote_incoming_window` by exactly one and increments
`next_outgoing_id` by exactly one — once per delivery, never per physical
fragment — so after N OKAY deliveries the window has dropped by N and the id
has risen by N, whatever the payload sizes and frame counts were. -/
theorem window_invariant_after_sends (s : Session) (ds : List (Nat × Delivery)) :
    (outgoingTransfers s ds).1.remote_incoming_window
      = s.remote_incoming_window - (okayCount (outgoingTransfers s ds).2 : Int) ∧
    (outgoingTransfers s ds).1.next_outgoing_id
      = s.next_outgoing_id + (okayCount (outgoingTransfers s ds).2 : Int) := by
  induction ds generalizing s with
  | nil => simp [outgoingTransfers, okayCount]
  | cons hd tl ih =>
    obtain ⟨A, d⟩ := hd
    simp only [outgoingTransfers]
    unfold outgoingTransfer
    by_cases hw : s.remote_incoming_window ≤ 0
    · simp only [if_pos hw]
      have h2 := ih s
      simp only [okayCount]
      constructor <;> simp <;> omega
    · simp only [if_neg hw]
      have h2 := ih { s with
        next_outgoing_id := s.next_outgoing_id + 1,
        remote_incoming_window := s.remote_incoming_window - 1,
        outgoing_window := s.outgoing_window - 1 }
      simp only [okayCount] at *
      constructor <;> simp at h2 ⊢ <;> omega

/-- Claim C2 (counterexample): a transmitted delivery with an empty payload
(`S = 0`) is emitted as one Transfer frame, not as the zero frames the
`ceil(S/A)` formula of the claim predicts. -/
theorem empty_payload_fragment_count_cex :
    ((outgoingTransfer baseSession 5 deliveryEmpty).2.2).length
      ≠ (deliveryEmpty.payload.length + 5 - 1) / 5 := by
  simp [outgoingTransfer, transferFrames, deliveryEmpty, baseSession]

/-- Claim C2 (amended): for a delivery transmitted by the outgoing-transfer
routine with a nonempty payload of size S, exactly ceil(S/A) frames are
emitted (an empty payload yields one frame); all but the last carry
`more = true`; every frame carries the session's `next_outgoing_id` at send
time as its `delivery_id`; and the fragments' payloads concatenate back to
the original payload. -/
theorem fragmentation_correctness (s : Session) (A : Nat) (d : Delivery)
    (hA : 0 < A) (hw : 0 < s.remote_incoming_window) :
    (d.payload ≠ [] →
      ((outgoingTransfer s A d).2.2).length = (d.payload.length + A - 1) / A) ∧
    (d.payload = [] → ((outgoingTransfer s A d).2.2).length = 1) ∧
    (∀ fr ∈ (outgoingTransfer s A d).2.2, frDeliveryId fr = s.next_outgoing_id) ∧
    ((outgoingTransfer s A d).2.2).map frMore
      = List.replicate (((outgoingTransfer s A d).2.2).length - 1) true ++ [false] ∧
    (((outgoingTransfer s A d).2.2).map frPayload).flatten = d.payload := by
  have hfr : (outgoingTransfer s A d).2.2
      = transferFrames s.next_outgoing_id d.meta A d.payload := by
    unfold outgoingTransfer
    rw [if_neg (not_le.mpr hw)]
  rw [hfr]
  refine ⟨?_, ?_, tf_delivery_id _ _ _ _, tf_more _ _ _ _, tf_flatten _ _ _ _⟩
  · intro hne
    rw [tf_length _ _ _ hA]
    have hL : 1 ≤ d.payload.length := List.length_pos.mpr hne
    have heq : d.payload.length + A - 1 = (d.payload.length - 1) + A := by omega
    rw [heq, Nat.add_div_right _ hA]
  · intro hnil
    rw [tf_length _ _ _ hA, hnil]
    simp

/-- Witness for the amended C2 at a concrete input: a 5-byte payload with
`available_frame_size = 2` on a mapped session with window 1. -/
theorem fragmentation_correctness_witness :
    (0 < 2 ∧ 0 < baseSession.remote_incoming_window) ∧
    ((deliveryEx.payload ≠ [] →
      ((outgoingTransfer baseSession 2 deliveryEx).2.2).length
        = (deliveryEx.payload.length + 2 - 1) / 2) ∧
    (deliveryEx.payload = [] →
      ((outgoingTransfer baseSession 2 deliveryEx).2.2).length = 1) ∧
    (∀ fr ∈ (outgoingTransfer baseSession 2 deliveryEx).2.2,
      frDeliveryId fr = baseSession.next_outgoing_id) ∧
    ((outgoingTransfer baseSession 2 deliveryEx).2.2).map frMore
      = List.replicate
          (((outgoingTransfer baseSession 2 deliveryEx).2.2).length - 1) true
        ++ [false] ∧
    (((outgoingTransfer baseSession 2 deliveryEx).2.2).map frPayload).flatten
      = deliveryEx.payload) :=
  ⟨⟨by decide, by decide⟩,
   fragmentation_correctness baseSession 2 deliveryEx (by decide) (by decide)⟩

/-- Claim C3 (counterexample): invoked on a session in BEGIN_SENT (not
MAPPED) whose `remote_incoming_window` is positive, the routine still sends:
the delivery ends OKAY (the transient ERROR mark is overwritten), frames are
emitted and `next_outgoing_id` advances — contradicting "nothing is sent". -/
theorem unmapped_transfer_still_sends_cex :
    (outgoingTransfer sessionNotMapped 5 deliveryEx).2.1 = SessionTransferState.OKAY
    ∧ (outgoingTransfer sessionNotMapped 5 deliveryEx).2.2 ≠ []
    ∧ (outgoingTransfer sessionNotMapped 5 deliveryEx).1.next_outgoing_id
        = sessionNotMapped.next_outgoing_id + 1 := by
  refine ⟨?_, ?_, ?_⟩ <;>
    simp [outgoingTransfer, transferFrames, deliveryEx, sessionNotMapped, baseSession,
      metaEx]

/-- Claim C3 (amended): when the outgoing-transfer routine runs on a session
that is not MAPPED, the ERROR mark is only transient because the source has
no early return: if `remote_incoming_window ≤ 0` the delivery ends BUSY and
nothing is sent with the session unchanged; otherwise the transfer proceeds
exactly as on a mapped session — the delivery ends OKAY, frames go out and
the counters move. -/
theorem unmapped_transfer_behavior (s : Session) (A : Nat) (d : Delivery)
    (_hnm : s.state ≠ SessionState.MAPPED) :
    (s.remote_incoming_window ≤ 0 →
      outgoingTransfer s A d = (s, SessionTransferState.BUSY, [])) ∧
    (0 < s.remote_incoming_window →
      (outgoingTransfer s A d).2.1 = SessionTransferState.OKAY ∧
      (outgoingTransfer s A d).2.2 ≠ [] ∧
      (outgoingTransfer s A d).1.next_outgoing_id = s.next_outgoing_id + 1 ∧
      (outgoingTransfer s A d).1.remote_incoming_window
        = s.remote_incoming_window - 1) := by
  constructor
  · intro hw
    unfold outgoingTransfer
    rw [if_pos hw]
  · intro hw
    unfold outgoingTransfer
    rw [if_neg (not_le.mpr hw)]
    exact ⟨rfl, tf_ne_nil _ _ _ _, rfl, rfl⟩

/-- Witness for the amended C3 at a concrete input: a BEGIN_SENT session. -/
theorem unmapped_transfer_behavior_witness :
    sessionNotMapped.state ≠ SessionState.MAPPED ∧
    ((sessionNotMapped.remote_incoming_window ≤ 0 →
      outgoingTransfer sessionNotMapped 3 deliveryEx
        = (sessionNotMapped, SessionTransferState.BUSY, [])) ∧
    (0 < sessionNotMapped.remote_incoming_window →
      (outgoingTransfer sessionNotMapped 3 deliveryEx).2.1
        = SessionTransferState.OKAY ∧
      (outgoingTransfer sessionNotMapped 3 deliveryEx).2.2 ≠ [] ∧
      (outgoingTransfer sessionNotMapped 3 deliveryEx).1.next_outgoing_id
        = sessionNotMapped.next_outgoing_id + 1 ∧
      (outgoingTransfer sessionNotMapped 3 deliveryEx).1.remote_incoming_window
        = sessionNotMapped.remote_incoming_window - 1)) :=
  ⟨by decide, unmapped_transfer_behavior sessionNotMapped 3 deliveryEx (by decide)⟩

/-- Claim C4: whenever the outgoing-transfer routine is invoked while
`remote_incoming_window ≤ 0`, the delivery ends BUSY, no Transfer frame is
emitted and the session — `next_outgoing_id` included — is unchanged. -/
theorem backpressure_busy (s : Session) (A : Nat) (d : Delivery)
    (hw : s.remote_incoming_window ≤ 0) :
    outgoingTransfer s A d = (s, SessionTransferState.BUSY, []) := by
  unfold outgoingTransfer
  rw [if_pos hw]

/-- Witness for C4 at a concrete input: a mapped session whose peer window
is 0. -/
theorem backpressure_busy_witness :
    sessionBusy.remote_incoming_window ≤ 0 ∧
    outgoingTransfer sessionBusy 3 deliveryEx
      = (sessionBusy, SessionTransferState.BUSY, []) :=
  ⟨by decide, backpressure_busy sessionBusy 3 deliveryEx (by decide)⟩

def sessionRecv : Session :=
  { baseSession with
    input_handles := [(7, linkEx)], incoming_window := 1,
    target_incoming_window := 5 }

def sessionFlow : Session := { baseSession with next_outgoing_id := 5 }

def flowZero : FlowIn :=
  { next_incoming_id := some 0, incoming_window := 10, next_outgoing_id := 7,
    outgoing_window := 3, handle := none }

def flowBroadcast : FlowIn :=
  { next_incoming_id := some 9, incoming_window := 10, next_outgoing_id := 7,
    outgoing_window := 3, handle := none }

def flowUnknown : FlowIn :=
  { next_incoming_id := some 9, incoming_window := 10, next_outgoing_id := 7,
    outgoing_window := 3, handle := some 42 }

def sessionHandlesFull : Session :=
  { baseSession with
    handle_max := 1,
    links := [(LinkKey.str "L1", linkEx)],
    output_handles := [(1, linkEx)],
    input_handles := [(2, linkEx)] }

def attachNew : AttachIn := { name := "l-new", handle := 3, role := Role.Sender }

/-- Claim C5: every incoming Transfer frame routed to a known link bumps
`next_incoming_id` by one and drops `remote_outgoing_window` and
`incoming_window` by one each (the `more` flag is never consulted); when the
decrement lands `incoming_window` on 0 it is replenished to
`target_incoming_window` and exactly one Flow frame advertising
`incoming_window = target_incoming_window` goes out, otherwise nothing is
sent. -/
theorem incoming_transfer_window_replenish (s : Session) (h : Nat)
    (hknown : (dlookup h s.input_handles).isSome) :
    (incomingTransfer s h).session.next_incoming_id = s.next_incoming_id + 1 ∧
    (incomingTransfer s h).session.remote_outgoing_window
      = s.remote_outgoing_window - 1 ∧
    (incomingTransfer s h).endedWith = none ∧
    (s.incoming_window - 1 ≠ 0 →
      (incomingTransfer s h).session.incoming_window = s.incoming_window - 1 ∧
      (incomingTransfer s h).frames = []) ∧
    (s.incoming_window - 1 = 0 →
      (incomingTransfer s h).session.incoming_window = s.target_incoming_window ∧
      (incomingTransfer s h).frames
        = [OutFrame.flow (s.next_incoming_id + 1) s.target_incoming_window
            s.next_outgoing_id s.outgoing_window]) := by
  obtain ⟨l, hl⟩ := Option.isSome_iff_exists.mp hknown
  by_cases hz : s.incoming_window - 1 = 0 <;>
    simp [incomingTransfer, hl, hz, outgoingFlowFrame]

/-- Witness for C5 at a concrete input: handle 7 is attached and the
window drops from 1 to 0, so the replenishing Flow goes out. -/
theorem incoming_transfer_window_replenish_witness :
    (dlookup 7 sessionRecv.input_handles).isSome ∧
    ((incomingTransfer sessionRecv 7).session.next_incoming_id
        = sessionRecv.next_incoming_id + 1 ∧
    (incomingTransfer sessionRecv 7).session.remote_outgoing_window
      = sessionRecv.remote_outgoing_window - 1 ∧
    (incomingTransfer sessionRecv 7).endedWith = none ∧
    (sessionRecv.incoming_window - 1 ≠ 0 →
      (incomingTransfer sessionRecv 7).session.incoming_window
        = sessionRecv.incoming_window - 1 ∧
      (incomingTransfer sessionRecv 7).frames = []) ∧
    (sessionRecv.incoming_window - 1 = 0 →
      (incomingTransfer sessionRecv 7).session.incoming_window
        = sessionRecv.target_incoming_window ∧
      (incomingTransfer sessionRecv 7).frames
        = [OutFrame.flow (sessionRecv.next_incoming_id + 1)
            sessionRecv.target_incoming_window
            sessionRecv.next_outgoing_id sessionRecv.outgoing_window])) :=
  ⟨by decide, incoming_transfer_window_replenish sessionRecv 7 (by decide)⟩

/-- Claim C6 (code bug): on an incoming Attach for an unknown link name when
the handle space is exhausted, the source intends to Detach the link with a
LinkDetachForced "cannot allocate more handles" error (lines 186-193), but
`self.links[frame[0].decode("utf-8")].detach(...)` looks the link up under a
key that was never inserted — the lookup itself raises `KeyError`, which
escapes the handler, so no Detach frame is ever sent.  The handle maps are
left untouched, as the claim says.  Evaluated here at the failing input:
`handle_max = 1` with one handle already allocated and a peer Attach for the
unknown name "l-new". -/
theorem handle_exhaustion_uncaught_keyerror :
    incomingAttach sessionHandlesFull attachNew
      = (sessionHandlesFull, [], some PyErr.keyError) := by decide

/-- Claim C7: an incoming Transfer frame whose handle matches no entry of
`_input_handles` drives the session to DISCARDING, and `end` is invoked with
the SessionUnattachedHandle AMQP error. -/
theorem unattached_transfer_discarding (s : Session) (h : Nat)
    (hunk : dlookup h s.input_handles = none) :
    (incomingTransfer s h).session.state = SessionState.DISCARDING ∧
    (incomingTransfer s h).endedWith = some unattachedHandleError := by
  by_cases hz : s.incoming_window - 1 = 0 <;>
    simp [incomingTransfer, hunk, hz, endSession]

/-- Witness for C7 at a concrete input: the spec's scenario of a Transfer
referencing handle 99 on a session with no attached input handles. -/
theorem unattached_transfer_discarding_witness :
    dlookup 99 baseSession.input_handles = none ∧
    ((incomingTransfer baseSession 99).session.state = SessionState.DISCARDING ∧
    (incomingTransfer baseSession 99).endedWith = some unattachedHandleError) :=
  ⟨by decide, unattached_transfer_discarding baseSession 99 (by decide)⟩

/-- Claim C8 (counterexample): one `end()` call with default arguments on a
MAPPED session leaves the state END_SENT, not UNMAPPED — with `wait = False`
nothing ever waits for the peer's End, and the unconditional
`_set_state(new_state)` puts the session in END_SENT. -/
theorem end_leaves_end_sent_cex :
    (endSession baseSession none).1.state ≠ SessionState.UNMAPPED := by decide

/-- Claim C8 (amended): calling `end()` twice in succession with default
arguments leaves the session in state END_SENT after each of the two calls
(neither call raises: the body is wrapped in a broad `except`, and with
`wait = False` no waiting is attempted); UNMAPPED would only be reached once
the peer's End frame arrives. -/
theorem end_twice_end_sent (s : Session) :
    (endSession s none).1.state = SessionState.END_SENT ∧
    (endSession (endSession s none).1 none).1.state = SessionState.END_SENT := by
  simp [endSession]

/-- Claim C9 (counterexample): a session-wide Flow frame carrying
`next_incoming_id = 0` — a present field — is treated like an absent one:
the Python truthiness test `frame[0] or self.next_outgoing_id` replaces the
value 0 with this side's `next_outgoing_id`, so the recomputed
`remote_incoming_window` (here 10) differs from the claim's formula using
the peer's value (here 0 + 10 - 5 = 5). -/
theorem flow_zero_next_incoming_id_cex :
    (incomingFlow sessionFlow flowZero).1.remote_incoming_window
      ≠ claimRemoteIncomingWindow sessionFlow flowZero := by decide

/-- Claim C9 (amended): on every incoming Flow frame the session sets
`next_incoming_id` to the peer's `next_outgoing_id` and updates
`remote_outgoing_window`; `remote_incoming_window` becomes
`peer_next_incoming_id + peer_incoming_window - next_outgoing_id` when the
peer's `next_incoming_id` field is present and nonzero, and collapses to
`peer_incoming_window` when the field is absent or zero (the truthiness
test conflates 0 with absent).  A handleless flow is forwarded to every
currently open link held in `_output_handles` exactly when the recomputed
`remote_incoming_window` is positive, and never raises. -/
theorem incoming_flow_updates_broadcast (s : Session) (f : FlowIn)
    (hh : f.handle = none) :
    (incomingFlow s f).1.next_incoming_id = f.next_outgoing_id ∧
    ((f.next_incoming_id = none ∨ f.next_incoming_id = some 0) →
      (incomingFlow s f).1.remote_incoming_window = f.incoming_window) ∧
    (∀ v, f.next_incoming_id = some v → v ≠ 0 →
      (incomingFlow s f).1.remote_incoming_window
        = v + f.incoming_window - s.next_outgoing_id) ∧
    (incomingFlow s f).1.remote_outgoing_window = f.outgoing_window ∧
    (incomingFlow s f).2.2 = none ∧
    ((incomingFlow s f).2.1 =
      if 0 < (incomingFlow s f).1.remote_incoming_window then
        (s.output_handles.filter (fun hl => !hl.2.is_closed)).map (fun hl => hl.1)
      else []) := by
  refine ⟨?_, ?_, ?_, ?_, ?_, ?_⟩
  · simp [incomingFlow, hh]
  · intro hv
    rcases hv with hv | hv <;> simp [incomingFlow, hh, pyOr, hv]
  · intro v hv hnz
    simp [incomingFlow, hh, pyOr, hv, hnz]
  · simp [incomingFlow, hh]
  · simp [incomingFlow, hh]
  · simp only [incomingFlow, hh]
    by_cases hW : 0 < pyOr f.next_incoming_id s.next_outgoing_id
        + f.incoming_window - s.next_outgoing_id
    · simp [hW]
    · simp [hW]

/-- Witness for the amended C9 at a concrete input: a handleless Flow with
`next_incoming_id = 9` against a session whose `next_outgoing_id` is 5. -/
theorem incoming_flow_updates_broadcast_witness :
    flowBroadcast.handle = none ∧
    ((incomingFlow sessionFlow flowBroadcast).1.next_incoming_id
        = flowBroadcast.next_outgoing_id ∧
    ((flowBroadcast.next_incoming_id = none
        ∨ flowBroadcast.next_incoming_id = some 0) →
      (incomingFlow sessionFlow flowBroadcast).1.remote_incoming_window
        = flowBroadcast.incoming_window) ∧
    (∀ v, flowBroadcast.next_incoming_id = some v → v ≠ 0 →
      (incomingFlow sessionFlow flowBroadcast).1.remote_incoming_window
        = v + flowBroadcast.incoming_window - sessionFlow.next_outgoing_id) ∧
    (incomingFlow sessionFlow flowBroadcast).1.remote_outgoing_window
      = flowBroadcast.outgoing_window ∧
    (incomingFlow sessionFlow flowBroadcast).2.2 = none ∧
    ((incomingFlow sessionFlow flowBroadcast).2.1 =
      if 0 < (incomingFlow sessionFlow flowBroadcast).1.remote_incoming_window then
        (sessionFlow.output_handles.filter
          (fun hl => !hl.2.is_closed)).map (fun hl => hl.1)
      else [])) :=
  ⟨by decide, incoming_flow_updates_broadcast sessionFlow flowBroadcast (by decide)⟩

/-- Claim C10: an incoming Flow carrying a link handle that matches no entry
of `_input_handles` raises an uncaught `KeyError` at the line-231 lookup —
after `next_incoming_id`, `remote_incoming_window` and
`remote_outgoing_window` have already been updated — with no link forwarded
to and no error frame sent. -/
theorem flow_unknown_handle_keyerror (s : Session) (f : FlowIn) (v : Nat)
    (hh : f.handle = some v) (hunk : dlookup v s.input_handles = none) :
    (incomingFlow s f).2.2 = some PyErr.keyError ∧
    (incomingFlow s f).2.1 = [] ∧
    (incomingFlow s f).1.next_incoming_id = f.next_outgoing_id ∧
    (incomingFlow s f).1.remote_incoming_window
      = pyOr f.next_incoming_id s.next_outgoing_id
        + f.incoming_window - s.next_outgoing_id ∧
    (incomingFlow s f).1.remote_outgoing_window = f.outgoing_window := by
  simp [incomingFlow, hh, hunk]

/-- Witness for C10 at a concrete input: a Flow referencing handle 42 on a
session with no attached input handles. -/
theorem flow_unknown_handle_keyerror_witness :
    flowUnknown.handle = some 42 ∧
    dlookup 42 sessionFlow.input_handles = none ∧
    ((incomingFlow sessionFlow flowUnknown).2.2 = some PyErr.keyError ∧
    (incomingFlow sessionFlow flowUnknown).2.1 = [] ∧
    (incomingFlow sessionFlow flowUnknown).1.next_incoming_id
      = flowUnknown.next_outgoing_id ∧
    (incomingFlow sessionFlow flowUnknown).1.remote_incoming_window
      = pyOr flowUnknown.next_incoming_id sessionFlow.next_outgoing_id
        + flowUnknown.incoming_window - sessionFlow.next_outgoing_id ∧
    (incomingFlow sessionFlow flowUnknown).1.remote_outgoing_window
      = flowUnknown.outgoing_window) :=
  ⟨by decide, by decide,
   flow_unknown_handle_keyerror sessionFlow flowUnknown 42 (by decide) (by decide)⟩

end PyAmqp
